import Mathlib

/-!
# OpenVR-AdvancedSettings: keyboard injection and move-center state

A shallow embedding of

* `src/tabcontrollers/keyboardinput/KeyboardInputWindows.cpp`
  (the Win32 `SendInput` wrappers), and
* the private data members of `MoveCenterTabController`
  (`src/tabcontrollers/MoveCenterTabController.h`).

Win32 calls are side effects.  They are modelled by an explicit `World`
(the sequence of `SendInput` calls made so far and the lines written to the
error log) together with a `Platform` that answers for the operating system:
what `SendInput`, `GetLastError` and `FormatMessage` return.  The message
buffer of `FormatMessage` is kept as bytes, because the source reads it through a
`char*` whatever the character width of the build.
-/

namespace advsettings

/-! ## Constants of `<Windows.h>` (WinUser.h) used by the source -/

/-- Value of `INPUT_KEYBOARD` in WinUser.h (`INPUT_MOUSE` is 0, `INPUT_HARDWARE` is 2). -/
def INPUT_KEYBOARD : Nat := 1

/-- Value of `KEYEVENTF_KEYUP` in WinUser.h. -/
def KEYEVENTF_KEYUP : Nat := 0x0002

/-- Virtual-key code of the Backspace key. -/
def VK_BACK : Nat := 0x08

/-- Virtual-key code of the Tab key. -/
def VK_TAB : Nat := 0x09

/-- Virtual-key code of the Enter key. -/
def VK_RETURN : Nat := 0x0D

/-- Virtual-key code of the Alt key. -/
def VK_MENU : Nat := 0x12

/-! ## Data model of the keyboard file -/

/-- State of a keyboard button press (`enum class KeyStatus`, lines 12-16). -/
inductive KeyStatus where
  | Up
  | Down
  deriving DecidableEq, Repr

/-- The `ki` member of the Win32 `INPUT` struct: `WORD wVk`, `WORD wScan`,
`DWORD dwFlags`, `DWORD time`, `ULONG_PTR dwExtraInfo`. -/
structure KEYBDINPUT where
  wVk : Nat
  wScan : Nat
  dwFlags : Nat
  time : Nat
  dwExtraInfo : Nat
  deriving DecidableEq, Repr

/-- The Win32 `INPUT` struct seen through its keyboard member: `DWORD type`
followed by the union whose keyboard view is `ki`.  The `mi` and `hi` views
share the storage of `ki` and are not represented separately. -/
structure INPUT where
  type : Nat
  ki : KEYBDINPUT
  deriving DecidableEq, Repr

/-- The value of `INPUT input = {};` : every field zero. -/
def INPUT.zero : INPUT := ⟨0, ⟨0, 0, 0, 0, 0⟩⟩

/-- One invocation of `SendInput( cInputs, pInputs, sizeof( INPUT ) )`.
The third argument is the constant `sizeof( INPUT )` at every call site and is
not recorded. -/
structure SendInputCall where
  cInputs : Nat
  pInputs : List INPUT
  deriving DecidableEq, Repr

/-- Answers of the operating system.  `SendInput k c` is the number of events
inserted by the call `c` when `k` calls were made before it; `GetLastError k`
is the thread error code read after that call; `FormatMessage e` is the pair
(return value, bytes of the buffer it allocated) for error code `e`, a return
value of 0 meaning failure.  `FormatMessage` is the `TCHAR` name: the buffer
holds one byte per character and a zero byte at the end when it resolves to
`FormatMessageA`, and UTF-16 code units (two bytes each, low byte first) and a
zero code unit at the end when it resolves to `FormatMessageW`. -/
structure Platform where
  SendInput : Nat → SendInputCall → Nat
  GetLastError : Nat → Nat
  FormatMessage : Nat → Nat × List Nat

/-- Observable effects of the keyboard functions: the `SendInput` calls made,
oldest first, and the lines written with `LOG( ERROR )`, oldest first. -/
structure World where
  calls : List SendInputCall
  log : List String
  deriving DecidableEq, Repr

/-! ## Functions of `KeyboardInputWindows.cpp` -/

/-- `static_cast<UINT>( inputCount )` for a 32-bit `UINT`. -/
def toUINT (inputCount : Int) : Nat := (inputCount % 2 ^ 32).toNat

/-- What `LOG( ERROR ) << err` writes for a `char* err` pointing at `bytes`: the
bytes before the first zero byte, one character per byte. -/
def cString (bytes : List Nat) : String :=
  String.mk ((bytes.takeWhile (fun b => b != 0)).map Char.ofNat)

/-- Embedding of `sendKeyboardInputRaw` (lines 44-72): one `SendInput` call, then
an error line when `inputCount > 0` and the call inserted nothing.  `err` is
declared `char*` (line 51), handed to `FormatMessage` through
`reinterpret_cast<LPTSTR>( &err )` (line 59) and streamed as a `char*` (line 69),
so the line holds the buffer read as a zero-terminated byte string. -/
def sendKeyboardInputRaw (p : Platform) (inputCount : Int) (input : List INPUT)
    (w : World) : World :=
  let call : SendInputCall := ⟨toUINT inputCount, input⟩
  let success := p.SendInput w.calls.length call
  let w1 : World := { w with calls := w.calls ++ [call] }
  if inputCount > 0 ∧ success = 0 then
    let errCode := p.GetLastError w.calls.length
    let fm := p.FormatMessage errCode
    if fm.1 = 0 then
      { w1 with log := w1.log ++
          ["Error calling SendInput(): Could not get error message ("
            ++ toString errCode ++ ")"] }
    else
      { w1 with log := w1.log ++ ["Error calling SendInput(): " ++ cString fm.2] }
  else
    w1

/-- Embedding of `createInputStruct` (lines 82-109). -/
def createInputStruct (virtualKeyCode : Nat) (keyStatus : KeyStatus) : INPUT :=
  let input := INPUT.zero
  let input := { input with type := INPUT_KEYBOARD }
  let input := { input with ki := { input.ki with wVk := virtualKeyCode } }
  if keyStatus = KeyStatus.Up then
    { input with ki := { input.ki with dwFlags := KEYEVENTF_KEYUP } }
  else if keyStatus = KeyStatus.Down then
    { input with ki := { input.ki with dwFlags := 0 } }
  else
    input

/-- Embedding of `sendKeyPressAndRelease` (lines 118-128). -/
def sendKeyPressAndRelease (p : Platform) (virtualKeyCode : Nat) (w : World) : World :=
  let press := createInputStruct virtualKeyCode KeyStatus.Down
  let release := createInputStruct virtualKeyCode KeyStatus.Up
  let numberOfActions : Int := 2
  let actions := [press, release]
  sendKeyboardInputRaw p numberOfActions actions w

/-- The `for` loop of `sendKeyboardBackspace` (lines 222-225), entered with the
current value of `presses`. -/
def sendKeyboardBackspaceLoop (p : Platform) (count : Int) (presses : Int) (w : World) :
    World :=
  if presses < count then
    sendKeyboardBackspaceLoop p count (presses + 1) (sendKeyPressAndRelease p VK_BACK w)
  else
    w
termination_by (count - presses).toNat
decreasing_by omega

/-- Embedding of `KeyboardInputWindows::sendKeyboardBackspace` (lines 214-226). -/
def sendKeyboardBackspace (p : Platform) (count : Int) (w : World) : World :=
  if count ≤ 0 then
    w
  else
    sendKeyboardBackspaceLoop p count 0 w

/-- Embedding of `KeyboardInputWindows::sendKeyboardEnter` (lines 205-208). -/
def sendKeyboardEnter (p : Platform) (w : World) : World :=
  sendKeyPressAndRelease p VK_RETURN w

/-- Embedding of `KeyboardInputWindows::sendKeyboardAltTab` (lines 235-249). -/
def sendKeyboardAltTab (p : Platform) (w : World) : World :=
  let pressAlt := createInputStruct VK_MENU KeyStatus.Down
  let pressTab := createInputStruct VK_TAB KeyStatus.Down
  let releaseAlt := createInputStruct VK_MENU KeyStatus.Up
  let releaseTab := createInputStruct VK_TAB KeyStatus.Up
  let numberOfActions : Int := 4
  let actions := [pressAlt, pressTab, releaseAlt, releaseTab]
  sendKeyboardInputRaw p numberOfActions actions w

/-! ## Types of `<openvr.h>` used by `MoveCenterTabController.h` -/

/-- Enumerators of `vr::ETrackingUniverseOrigin` in openvr.h. -/
inductive ETrackingUniverseOrigin where
  | TrackingUniverseSeated
  | TrackingUniverseStanding
  | TrackingUniverseRawAndUncalibrated
  deriving DecidableEq, Repr

/-- Integer value of an `ETrackingUniverseOrigin` enumerator, as produced by the
cast `( int ) vr::TrackingUniverseStanding`. -/
def ETrackingUniverseOrigin.toInt : ETrackingUniverseOrigin → Int
  | .TrackingUniverseSeated => 0
  | .TrackingUniverseStanding => 1
  | .TrackingUniverseRawAndUncalibrated => 2

/-- Enumerators of `vr::ETrackedControllerRole` in openvr.h. -/
inductive ETrackedControllerRole where
  | TrackedControllerRole_Invalid
  | TrackedControllerRole_LeftHand
  | TrackedControllerRole_RightHand
  | TrackedControllerRole_OptOut
  | TrackedControllerRole_Treadmill
  deriving DecidableEq, Repr

/-- The struct `vr::HmdQuaternion_t` (`double w, x, y, z`), over a scalar type `α`.
A finite `double` is a rational number, so stored values live in
`HmdQuaternion_t ℚ`. -/
structure HmdQuaternion_t (α : Type) where
  w : α
  x : α
  y : α
  z : α
  deriving DecidableEq, Repr

/-! ## Data members of `MoveCenterTabController` -/

/-- The data members of `class MoveCenterTabController` (header lines 46-91), in
declaration order.  Pointers and `vr::TrackedDeviceIndex_t` are natural numbers,
finite `float`/`double` values are rationals, a `time_point` is its tick count
since the epoch. -/
structure MoveCenterTabController where
  parent : Nat
  widget : Nat
  m_trackingUniverse : Int
  m_offsetX : ℚ
  m_offsetY : ℚ
  m_offsetZ : ℚ
  m_rotation : Int
  m_tempRotation : Int
  m_adjustChaperone : Bool
  m_settingsHandTurningEnabled : Bool
  m_moveShortcutRightPressed : Bool
  m_moveShortcutLeftPressed : Bool
  m_activeMoveController : Nat
  m_lastControllerPosition : ℚ × ℚ × ℚ
  m_settingsRightHandDragEnabled : Bool
  m_settingsLeftHandDragEnabled : Bool
  m_lockXToggle : Bool
  m_lockYToggle : Bool
  m_lockZToggle : Bool
  lastMoveButtonClick : Int × Int
  lastHandQuaternion : HmdQuaternion_t ℚ
  handQuaternion : HmdQuaternion_t ℚ
  lastHmdQuaternion : HmdQuaternion_t ℚ
  hmdQuaternion : HmdQuaternion_t ℚ
  m_hmdYawTotal : ℚ
  m_activeDragHand : ETrackedControllerRole
  m_lastMoveHand : ETrackedControllerRole
  m_activeTurnHand : ETrackedControllerRole
  m_lastRotateHand : ETrackedControllerRole
  m_leftHandDragPressed : Bool
  m_rightHandDragPressed : Bool
  m_overrideLeftHandDragPressed : Bool
  m_overrideRightHandDragPressed : Bool
  m_leftHandTurnPressed : Bool
  m_rightHandTurnPressed : Bool
  m_overrideLeftHandTurnPressed : Bool
  m_overrideRightHandTurnPressed : Bool
  settingsUpdateCounter : Nat
  deriving DecidableEq, Repr

/-- Values found in the scalar, array and plain-struct members that the class
declares without a default member initializer (`parent`, `widget`,
`m_activeMoveController`, `m_lastControllerPosition`, `handQuaternion`,
`hmdQuaternion`).  The class declares no constructor, so default-initialization
leaves them with whatever the storage held. -/
structure Indeterminate where
  parent : Nat
  widget : Nat
  m_activeMoveController : Nat
  m_lastControllerPosition : ℚ × ℚ × ℚ
  handQuaternion : HmdQuaternion_t ℚ
  hmdQuaternion : HmdQuaternion_t ℚ
  deriving DecidableEq, Repr

/-- State of a freshly constructed `MoveCenterTabController`: each member that has
a default member initializer holds it (header lines 49-91), `lastMoveButtonClick`
is default-constructed (two epoch time points), and the members without
initializer take the values of `u`. -/
def MoveCenterTabController.construct (u : Indeterminate) : MoveCenterTabController where
  parent := u.parent
  widget := u.widget
  m_trackingUniverse := ETrackingUniverseOrigin.TrackingUniverseStanding.toInt
  m_offsetX := 0
  m_offsetY := 0
  m_offsetZ := 0
  m_rotation := 0
  m_tempRotation := 0
  m_adjustChaperone := true
  m_settingsHandTurningEnabled := false
  m_moveShortcutRightPressed := false
  m_moveShortcutLeftPressed := false
  m_activeMoveController := u.m_activeMoveController
  m_lastControllerPosition := u.m_lastControllerPosition
  m_settingsRightHandDragEnabled := false
  m_settingsLeftHandDragEnabled := false
  m_lockXToggle := false
  m_lockYToggle := false
  m_lockZToggle := false
  lastMoveButtonClick := (0, 0)
  lastHandQuaternion := ⟨-1000, 0, 0, 0⟩
  handQuaternion := u.handQuaternion
  lastHmdQuaternion := ⟨-1000, 0, 0, 0⟩
  hmdQuaternion := u.hmdQuaternion
  m_hmdYawTotal := 0
  m_activeDragHand := ETrackedControllerRole.TrackedControllerRole_Invalid
  m_lastMoveHand := ETrackedControllerRole.TrackedControllerRole_Invalid
  m_activeTurnHand := ETrackedControllerRole.TrackedControllerRole_Invalid
  m_lastRotateHand := ETrackedControllerRole.TrackedControllerRole_Invalid
  m_leftHandDragPressed := false
  m_rightHandDragPressed := false
  m_overrideLeftHandDragPressed := false
  m_overrideRightHandDragPressed := false
  m_leftHandTurnPressed := false
  m_rightHandTurnPressed := false
  m_overrideLeftHandTurnPressed := false
  m_overrideRightHandTurnPressed := false
  settingsUpdateCounter := 0

/-- Storage in which every member without initializer happens to hold zero. -/
def Indeterminate.zeros : Indeterminate :=
  ⟨0, 0, 0, (0, 0, 0), ⟨0, 0, 0, 0⟩, ⟨0, 0, 0, 0⟩⟩

/-- Storage holding arbitrary leftover values. -/
def Indeterminate.leftover : Indeterminate :=
  ⟨7, 9, 64, (1, 2, 3), ⟨1, 0, 0, 0⟩, ⟨0, 1, 0, 0⟩⟩

/-! ## Concrete platforms and worlds used to exercise the keyboard functions -/

/-- Buffer that `FormatMessageA` fills for the text `s`: one byte per character,
then a zero byte. -/
def narrowBuffer (s : String) : List Nat :=
  s.data.map (fun c => c.toNat % 256) ++ [0]

/-- Buffer that `FormatMessageW` fills for a text `s` of characters below U+10000:
per character its UTF-16 code unit as two bytes, low byte first, then a zero code
unit. -/
def wideBuffer (s : String) : List Nat :=
  (s.data.map (fun c => [c.toNat % 256, c.toNat / 256 % 256])).flatten ++ [0, 0]

/-- A platform on which `SendInput` inserts every event it is given. -/
def Platform.accepting : Platform :=
  ⟨fun _ c => c.cInputs, fun _ => 0, fun _ => (0, [])⟩

/-- A platform on which `SendInput` inserts nothing, the error code is 5 and
`FormatMessage` is `FormatMessageA` and yields the 14 characters of
"Access denied." as narrow text. -/
def Platform.blocked : Platform :=
  ⟨fun _ _ => 0, fun _ => 5, fun _ => (14, narrowBuffer "Access denied.")⟩

/-- The platform of a build with `UNICODE` defined: `SendInput` inserts nothing, the
error code is 5 and `FormatMessage` is `FormatMessageW` and yields the 14
characters of "Access denied." as UTF-16 text. -/
def Platform.blockedWide : Platform :=
  ⟨fun _ _ => 0, fun _ => 5, fun _ => (14, wideBuffer "Access denied.")⟩

/-- A platform on which `SendInput` inserts nothing, the error code is 87 and
`FormatMessage` fails. -/
def Platform.blockedNoText : Platform :=
  ⟨fun _ _ => 0, fun _ => 87, fun _ => (0, [])⟩

/-- The world before any keyboard function ran. -/
def World.initial : World := ⟨[], []⟩

/-! ## Shared lemmas on the keyboard functions -/

/-- Every run of `sendKeyboardInputRaw` appends exactly one `SendInput` call. -/
lemma sendKeyboardInputRaw_calls (p : Platform) (inputCount : Int) (input : List INPUT)
    (w : World) :
    (sendKeyboardInputRaw p inputCount input w).calls
      = w.calls ++ [⟨toUINT inputCount, input⟩] := by
  unfold sendKeyboardInputRaw
  dsimp only
  split_ifs <;> rfl

/-- The two events built by `sendKeyPressAndRelease`. -/
lemma createInputStruct_down_up (vk : Nat) :
    createInputStruct vk KeyStatus.Down = ⟨INPUT_KEYBOARD, ⟨vk, 0, 0, 0, 0⟩⟩ ∧
    createInputStruct vk KeyStatus.Up
      = ⟨INPUT_KEYBOARD, ⟨vk, 0, KEYEVENTF_KEYUP, 0, 0⟩⟩ := by
  constructor <;> rfl

/-- One run of `sendKeyPressAndRelease` appends one call carrying (down, up). -/
lemma sendKeyPressAndRelease_calls (p : Platform) (vk : Nat) (w : World) :
    (sendKeyPressAndRelease p vk w).calls
      = w.calls ++ [⟨2, [⟨INPUT_KEYBOARD, ⟨vk, 0, 0, 0, 0⟩⟩,
                         ⟨INPUT_KEYBOARD, ⟨vk, 0, KEYEVENTF_KEYUP, 0, 0⟩⟩]⟩] := by
  unfold sendKeyPressAndRelease
  dsimp only
  rw [sendKeyboardInputRaw_calls, (createInputStruct_down_up vk).1,
    (createInputStruct_down_up vk).2]
  rfl

/-- The loop of `sendKeyboardBackspace`, entered `n` iterations before its end,
appends `n` Backspace calls. -/
lemma sendKeyboardBackspaceLoop_calls (p : Platform) (count : Int) (n : Nat) :
    ∀ (presses : Int) (w : World), presses + n = count →
      (sendKeyboardBackspaceLoop p count presses w).calls
        = w.calls ++ List.replicate n
            ⟨2, [⟨INPUT_KEYBOARD, ⟨VK_BACK, 0, 0, 0, 0⟩⟩,
                 ⟨INPUT_KEYBOARD, ⟨VK_BACK, 0, KEYEVENTF_KEYUP, 0, 0⟩⟩]⟩ := by
  induction n with
  | zero =>
    intro presses w h
    rw [sendKeyboardBackspaceLoop]
    have : ¬ presses < count := by omega
    simp [this]
  | succ k ih =>
    intro presses w h
    rw [sendKeyboardBackspaceLoop]
    have hlt : presses < count := by omega
    rw [if_pos hlt, ih (presses + 1) _ (by push_cast at h; omega),
      sendKeyPressAndRelease_calls, List.append_assoc]
    rfl

/-! ## Keyboard claims -/

/-- C1: `sendKeyboardBackspace( count )` with `count <= 0` makes no `SendInput`
call (the world is unchanged); with `count > 0` it makes exactly `count` calls, each
carrying exactly the two events (Backspace down, Backspace up) in that order, so
the events emitted in total are `count` repetitions of that pair. -/
theorem sendKeyboardBackspace_sends_count_pairs (p : Platform) (count : Int) (w : World) :
    (count ≤ 0 → sendKeyboardBackspace p count w = w) ∧
    (0 < count →
      (sendKeyboardBackspace p count w).calls
        = w.calls ++ List.replicate count.toNat
            ⟨2, [⟨INPUT_KEYBOARD, ⟨VK_BACK, 0, 0, 0, 0⟩⟩,
                 ⟨INPUT_KEYBOARD, ⟨VK_BACK, 0, KEYEVENTF_KEYUP, 0, 0⟩⟩]⟩ ∧
      ((sendKeyboardBackspace p count w).calls.drop w.calls.length).length = count.toNat ∧
      (((sendKeyboardBackspace p count w).calls.drop w.calls.length).map
          SendInputCall.pInputs).flatten
        = (List.replicate count.toNat
            [(⟨INPUT_KEYBOARD, ⟨VK_BACK, 0, 0, 0, 0⟩⟩ : INPUT),
             ⟨INPUT_KEYBOARD, ⟨VK_BACK, 0, KEYEVENTF_KEYUP, 0, 0⟩⟩]).flatten) := by
  constructor
  · intro h
    simp [sendKeyboardBackspace, h]
  · intro h
    have hnot : ¬ count ≤ 0 := by omega
    have hcalls := sendKeyboardBackspaceLoop_calls p count count.toNat 0 w (by omega)
    simp only [sendKeyboardBackspace, if_neg hnot]
    refine ⟨hcalls, ?_, ?_⟩
    · rw [hcalls]; simp
    · rw [hcalls]; simp [List.map_replicate]

/-- Witness for C1 at `count = -2` (nothing sent) and `count = 3` (three calls). -/
theorem sendKeyboardBackspace_sends_count_pairs_witness :
    sendKeyboardBackspace Platform.accepting (-2) World.initial = World.initial ∧
    (sendKeyboardBackspace Platform.accepting 3 World.initial).calls
      = [⟨2, [⟨1, ⟨8, 0, 0, 0, 0⟩⟩, ⟨1, ⟨8, 0, 2, 0, 0⟩⟩]⟩,
         ⟨2, [⟨1, ⟨8, 0, 0, 0, 0⟩⟩, ⟨1, ⟨8, 0, 2, 0, 0⟩⟩]⟩,
         ⟨2, [⟨1, ⟨8, 0, 0, 0, 0⟩⟩, ⟨1, ⟨8, 0, 2, 0, 0⟩⟩]⟩] :=
  ⟨(sendKeyboardBackspace_sends_count_pairs Platform.accepting (-2) World.initial).1
      (by decide),
   ((sendKeyboardBackspace_sends_count_pairs Platform.accepting 3 World.initial).2
      (by decide)).1⟩

/-- C2 (as stated) fails: for Backspace pressed down the returned struct has
`type = INPUT_KEYBOARD = 1`, so it is not the case that every field other than
`ki.wVk` and `ki.dwFlags` is zero. -/
theorem createInputStruct_type_not_zero :
    (createInputStruct VK_BACK KeyStatus.Down).type = 1 ∧
    ¬ ((createInputStruct VK_BACK KeyStatus.Down).ki.wVk = VK_BACK ∧
       (createInputStruct VK_BACK KeyStatus.Down).ki.dwFlags = 0 ∧
       (createInputStruct VK_BACK KeyStatus.Down).type = 0 ∧
       (createInputStruct VK_BACK KeyStatus.Down).ki.wScan = 0 ∧
       (createInputStruct VK_BACK KeyStatus.Down).ki.time = 0 ∧
       (createInputStruct VK_BACK KeyStatus.Down).ki.dwExtraInfo = 0) := by
  decide

/-- C2 (amended): for every 16-bit `virtualKeyCode` and every `keyStatus` the
returned struct has `ki.wVk = virtualKeyCode`, `ki.dwFlags = KEYEVENTF_KEYUP` for
`Up` and `0` for `Down`, `type = INPUT_KEYBOARD`, and the remaining fields
`ki.wScan`, `ki.time`, `ki.dwExtraInfo` are zero. -/
theorem createInputStruct_fields (virtualKeyCode : Nat) (keyStatus : KeyStatus)
    (_hword : virtualKeyCode < 2 ^ 16) :
    (createInputStruct virtualKeyCode keyStatus).ki.wVk = virtualKeyCode ∧
    (keyStatus = KeyStatus.Up →
      (createInputStruct virtualKeyCode keyStatus).ki.dwFlags = KEYEVENTF_KEYUP) ∧
    (keyStatus = KeyStatus.Down →
      (createInputStruct virtualKeyCode keyStatus).ki.dwFlags = 0) ∧
    (createInputStruct virtualKeyCode keyStatus).type = INPUT_KEYBOARD ∧
    (createInputStruct virtualKeyCode keyStatus).ki.wScan = 0 ∧
    (createInputStruct virtualKeyCode keyStatus).ki.time = 0 ∧
    (createInputStruct virtualKeyCode keyStatus).ki.dwExtraInfo = 0 := by
  cases keyStatus <;> simp [createInputStruct, INPUT.zero]

/-- Witness for amended C2 at the Tab key released. -/
theorem createInputStruct_fields_witness :
    VK_TAB < 2 ^ 16 ∧
    (createInputStruct VK_TAB KeyStatus.Up).ki.wVk = VK_TAB ∧
    (createInputStruct VK_TAB KeyStatus.Up).ki.dwFlags = KEYEVENTF_KEYUP ∧
    (createInputStruct VK_TAB KeyStatus.Up).type = INPUT_KEYBOARD :=
  ⟨by decide,
   (createInputStruct_fields VK_TAB KeyStatus.Up (by decide)).1,
   (createInputStruct_fields VK_TAB KeyStatus.Up (by decide)).2.1 rfl,
   (createInputStruct_fields VK_TAB KeyStatus.Up (by decide)).2.2.2.1⟩

/-- Effects of one run of `sendKeyboardInputRaw`, for every platform: exactly one
`SendInput` call is made; a line is added to the error log if and only if
`inputCount > 0` and that call returned 0; when `FormatMessage` fails the line
carries the numeric code of `GetLastError`; when it succeeds the line carries the
message buffer read as a zero-terminated byte string. -/
lemma sendKeyboardInputRaw_effects (p : Platform) (inputCount : Int)
    (input : List INPUT) (w : World) :
    (sendKeyboardInputRaw p inputCount input w).calls
      = w.calls ++ [⟨toUINT inputCount, input⟩] ∧
    ((sendKeyboardInputRaw p inputCount input w).log ≠ w.log ↔
      (inputCount > 0 ∧ p.SendInput w.calls.length ⟨toUINT inputCount, input⟩ = 0)) ∧
    (¬ (inputCount > 0 ∧ p.SendInput w.calls.length ⟨toUINT inputCount, input⟩ = 0) →
      (sendKeyboardInputRaw p inputCount input w).log = w.log) ∧
    ((inputCount > 0 ∧ p.SendInput w.calls.length ⟨toUINT inputCount, input⟩ = 0) →
      ((p.FormatMessage (p.GetLastError w.calls.length)).1 ≠ 0 →
        (sendKeyboardInputRaw p inputCount input w).log
          = w.log ++ ["Error calling SendInput(): "
              ++ cString (p.FormatMessage (p.GetLastError w.calls.length)).2]) ∧
      ((p.FormatMessage (p.GetLastError w.calls.length)).1 = 0 →
        (sendKeyboardInputRaw p inputCount input w).log
          = w.log ++ ["Error calling SendInput(): Could not get error message ("
              ++ toString (p.GetLastError w.calls.length) ++ ")"])) := by
  refine ⟨sendKeyboardInputRaw_calls p inputCount input w, ?_, ?_, ?_⟩
  · unfold sendKeyboardInputRaw
    dsimp only
    split_ifs with h1 h2 <;> simp [h1]
  · intro h
    unfold sendKeyboardInputRaw
    dsimp only
    rw [if_neg h]
  · intro h
    unfold sendKeyboardInputRaw
    dsimp only
    rw [if_pos h]
    constructor
    · intro hfm
      rw [if_neg hfm]
    · intro hfm
      rw [if_pos hfm]

/-- A wide (UTF-16) message buffer read through `char*` yields its first character
only, whenever that character is a non-zero single byte: the high byte of its code
unit is the first zero byte. -/
lemma cString_wideBuffer_first (c : Char) (rest : List Char) (h0 : c.toNat ≠ 0)
    (h256 : c.toNat < 256) :
    cString (wideBuffer (String.mk (c :: rest))) = String.mk [c] := by
  have hmod : c.toNat % 256 = c.toNat := Nat.mod_eq_of_lt h256
  have hdiv : c.toNat / 256 % 256 = 0 := by
    rw [Nat.div_eq_of_lt h256]
  have hb : (c.toNat != 0) = true := by simp [h0]
  simp [cString, wideBuffer, hmod, hdiv, List.takeWhile, hb, Char.ofNat_toNat]

/-- A narrow message buffer read through `char*` yields the whole message, whenever
every character of it is a non-zero single byte. -/
lemma cString_narrowBuffer_whole (cs : List Char)
    (h : ∀ c ∈ cs, c.toNat ≠ 0 ∧ c.toNat < 256) :
    cString (narrowBuffer (String.mk cs)) = String.mk cs := by
  have key : ((cs.map (fun (c : Char) => c.toNat % 256) ++ [0]).takeWhile
      (fun b => b != 0)).map Char.ofNat = cs := by
    induction cs with
    | nil => simp
    | cons c rest ih =>
      have hc := h c (List.mem_cons_self c rest)
      have hmod : c.toNat % 256 = c.toNat := Nat.mod_eq_of_lt hc.2
      have hb : (c.toNat != 0) = true := by simp [hc.1]
      have ih2 := ih (fun d hd => h d (List.mem_cons_of_mem c hd))
      simp only [List.map_cons, List.cons_append, hmod, List.takeWhile_cons, hb, if_true,
        Char.ofNat_toNat, ih2]
  simp only [cString, narrowBuffer]
  rw [key]

/-- C3, evaluated where the code departs from it.  In a build with `UNICODE`
defined, `SendInput` is blocked, `GetLastError` gives 5 and `FormatMessage` succeeds
with the message "Access denied.".  One `SendInput` call is made and one line is
logged, but the line is "Error calling SendInput(): A": it does not carry the
platform error message.  With the same message as narrow text the line carries it
whole. -/
theorem sendKeyboardInputRaw_wide_message_cut :
    (Platform.blockedWide.FormatMessage (Platform.blockedWide.GetLastError 0)).1 ≠ 0 ∧
    (sendKeyboardInputRaw Platform.blockedWide 2
        [createInputStruct VK_TAB KeyStatus.Down, createInputStruct VK_TAB KeyStatus.Up]
        World.initial).calls
      = [⟨2, [⟨INPUT_KEYBOARD, ⟨VK_TAB, 0, 0, 0, 0⟩⟩,
              ⟨INPUT_KEYBOARD, ⟨VK_TAB, 0, KEYEVENTF_KEYUP, 0, 0⟩⟩]⟩] ∧
    (sendKeyboardInputRaw Platform.blockedWide 2
        [createInputStruct VK_TAB KeyStatus.Down, createInputStruct VK_TAB KeyStatus.Up]
        World.initial).log
      = ["Error calling SendInput(): A"] ∧
    (sendKeyboardInputRaw Platform.blockedWide 2
        [createInputStruct VK_TAB KeyStatus.Down, createInputStruct VK_TAB KeyStatus.Up]
        World.initial).log
      ≠ ["Error calling SendInput(): Access denied."] ∧
    (sendKeyboardInputRaw Platform.blocked 2
        [createInputStruct VK_TAB KeyStatus.Down, createInputStruct VK_TAB KeyStatus.Up]
        World.initial).log
      = ["Error calling SendInput(): Access denied."] := by
  refine ⟨by decide, rfl, ?_, ?_, ?_⟩
  · decide
  · decide
  · decide

/-- C4: `sendKeyboardAltTab` makes exactly one `SendInput` call, whose event array is
exactly (Alt down, Tab down, Alt up, Tab up) in that order. -/
theorem sendKeyboardAltTab_one_call_four_events (p : Platform) (w : World) :
    (sendKeyboardAltTab p w).calls
      = w.calls ++ [⟨4, [⟨INPUT_KEYBOARD, ⟨VK_MENU, 0, 0, 0, 0⟩⟩,
                         ⟨INPUT_KEYBOARD, ⟨VK_TAB, 0, 0, 0, 0⟩⟩,
                         ⟨INPUT_KEYBOARD, ⟨VK_MENU, 0, KEYEVENTF_KEYUP, 0, 0⟩⟩,
                         ⟨INPUT_KEYBOARD, ⟨VK_TAB, 0, KEYEVENTF_KEYUP, 0, 0⟩⟩]⟩] := by
  unfold sendKeyboardAltTab
  dsimp only
  rw [sendKeyboardInputRaw_calls, (createInputStruct_down_up VK_MENU).1,
    (createInputStruct_down_up VK_MENU).2, (createInputStruct_down_up VK_TAB).1,
    (createInputStruct_down_up VK_TAB).2]
  rfl

/-! ## Claims on the state of `MoveCenterTabController` -/

/-- C5 (as stated) fails.  The fresh state is not determined by the class (two
storages give two fresh states, because some members have no default member
initializer), and even on zeroed storage the fresh state is not the claimed
one: `m_trackingUniverse` is 1, `m_adjustChaperone` is true, and `handQuaternion`
and `hmdQuaternion` do not hold the sentinel `w = -1000`. -/
theorem construct_not_all_zeroed_or_sentinel :
    MoveCenterTabController.construct Indeterminate.zeros
        ≠ MoveCenterTabController.construct Indeterminate.leftover ∧
    (MoveCenterTabController.construct Indeterminate.zeros).m_trackingUniverse = 1 ∧
    (MoveCenterTabController.construct Indeterminate.zeros).m_adjustChaperone = true ∧
    (MoveCenterTabController.construct Indeterminate.zeros).handQuaternion.w = 0 ∧
    (MoveCenterTabController.construct Indeterminate.leftover).m_activeMoveController = 64 ∧
    ¬ ((MoveCenterTabController.construct Indeterminate.zeros).m_offsetX = 0 ∧
       (MoveCenterTabController.construct Indeterminate.zeros).m_offsetY = 0 ∧
       (MoveCenterTabController.construct Indeterminate.zeros).m_offsetZ = 0 ∧
       (MoveCenterTabController.construct Indeterminate.zeros).m_rotation = 0 ∧
       (MoveCenterTabController.construct Indeterminate.zeros).m_tempRotation = 0 ∧
       (MoveCenterTabController.construct Indeterminate.zeros).m_hmdYawTotal = 0 ∧
       (MoveCenterTabController.construct Indeterminate.zeros).m_lockXToggle = false ∧
       (MoveCenterTabController.construct Indeterminate.zeros).m_lockYToggle = false ∧
       (MoveCenterTabController.construct Indeterminate.zeros).m_lockZToggle = false ∧
       (MoveCenterTabController.construct Indeterminate.zeros).m_moveShortcutRightPressed
           = false ∧
       (MoveCenterTabController.construct Indeterminate.zeros).m_moveShortcutLeftPressed = false ∧
       (MoveCenterTabController.construct Indeterminate.zeros).m_leftHandDragPressed = false ∧
       (MoveCenterTabController.construct Indeterminate.zeros).m_rightHandDragPressed = false ∧
       (MoveCenterTabController.construct Indeterminate.zeros).m_overrideLeftHandDragPressed
           = false ∧
       (MoveCenterTabController.construct Indeterminate.zeros).m_overrideRightHandDragPressed
           = false ∧
       (MoveCenterTabController.construct Indeterminate.zeros).m_leftHandTurnPressed = false ∧
       (MoveCenterTabController.construct Indeterminate.zeros).m_rightHandTurnPressed = false ∧
       (MoveCenterTabController.construct Indeterminate.zeros).m_overrideLeftHandTurnPressed
           = false ∧
       (MoveCenterTabController.construct Indeterminate.zeros).m_overrideRightHandTurnPressed
           = false ∧
       (MoveCenterTabController.construct Indeterminate.zeros).m_activeDragHand
          = ETrackedControllerRole.TrackedControllerRole_Invalid ∧
       (MoveCenterTabController.construct Indeterminate.zeros).m_lastMoveHand
          = ETrackedControllerRole.TrackedControllerRole_Invalid ∧
       (MoveCenterTabController.construct Indeterminate.zeros).m_activeTurnHand
          = ETrackedControllerRole.TrackedControllerRole_Invalid ∧
       (MoveCenterTabController.construct Indeterminate.zeros).m_lastRotateHand
          = ETrackedControllerRole.TrackedControllerRole_Invalid ∧
       (MoveCenterTabController.construct Indeterminate.zeros).m_trackingUniverse = 0 ∧
       (MoveCenterTabController.construct Indeterminate.zeros).m_adjustChaperone = false ∧
       (MoveCenterTabController.construct Indeterminate.zeros).m_activeMoveController = 0 ∧
       (MoveCenterTabController.construct Indeterminate.zeros).m_lastControllerPosition
           = (0, 0, 0) ∧
       (MoveCenterTabController.construct Indeterminate.zeros).lastHandQuaternion.w = -1000 ∧
       (MoveCenterTabController.construct Indeterminate.zeros).lastHmdQuaternion.w = -1000 ∧
       (MoveCenterTabController.construct Indeterminate.zeros).handQuaternion.w = -1000 ∧
       (MoveCenterTabController.construct Indeterminate.zeros).hmdQuaternion.w = -1000) := by
  refine ⟨by decide, rfl, rfl, rfl, rfl, ?_⟩
  intro h
  have h25 := h.2.2.2.2.2.2.2.2.2.2.2.2.2.2.2.2.2.2.2.2.2.2.2.2.1
  exact absurd h25 (by decide)

/-- C5 (amended): in a freshly constructed `MoveCenterTabController` every member
that has a default member initializer holds it.  These are zero/false for the
offsets, rotation, tempRotation, hmdYawTotal, the lock toggles, the pressed and
override flags, the settings flags and the update counter, `Invalid` for the four
role selectors and the sentinel (-1000, 0, 0, 0) for `lastHandQuaternion` and
`lastHmdQuaternion`; `m_trackingUniverse` is `TrackingUniverseStanding` (1) and
`m_adjustChaperone` is true.  The members `m_activeMoveController`,
`m_lastControllerPosition`, `handQuaternion` and `hmdQuaternion` have no default
member initializer and hold whatever their storage held. -/
theorem construct_default_member_initializers (u : Indeterminate) :
    (MoveCenterTabController.construct u).m_offsetX
        = 0 ∧ (MoveCenterTabController.construct u).m_offsetY = 0 ∧
    (MoveCenterTabController.construct u).m_offsetZ = 0 ∧
    (MoveCenterTabController.construct u).m_rotation
        = 0 ∧ (MoveCenterTabController.construct u).m_tempRotation = 0 ∧
    (MoveCenterTabController.construct u).m_hmdYawTotal = 0 ∧
    (MoveCenterTabController.construct u).m_lockXToggle
        = false ∧ (MoveCenterTabController.construct u).m_lockYToggle = false ∧
    (MoveCenterTabController.construct u).m_lockZToggle = false ∧
    (MoveCenterTabController.construct u).m_moveShortcutRightPressed = false ∧
    (MoveCenterTabController.construct u).m_moveShortcutLeftPressed = false ∧
    (MoveCenterTabController.construct u).m_leftHandDragPressed = false ∧
    (MoveCenterTabController.construct u).m_rightHandDragPressed = false ∧
    (MoveCenterTabController.construct u).m_overrideLeftHandDragPressed = false ∧
    (MoveCenterTabController.construct u).m_overrideRightHandDragPressed = false ∧
    (MoveCenterTabController.construct u).m_leftHandTurnPressed = false ∧
    (MoveCenterTabController.construct u).m_rightHandTurnPressed = false ∧
    (MoveCenterTabController.construct u).m_overrideLeftHandTurnPressed = false ∧
    (MoveCenterTabController.construct u).m_overrideRightHandTurnPressed = false ∧
    (MoveCenterTabController.construct u).m_settingsHandTurningEnabled = false ∧
    (MoveCenterTabController.construct u).m_settingsRightHandDragEnabled = false ∧
    (MoveCenterTabController.construct u).m_settingsLeftHandDragEnabled = false ∧
    (MoveCenterTabController.construct u).settingsUpdateCounter = 0 ∧
    (MoveCenterTabController.construct u).m_activeDragHand
        = ETrackedControllerRole.TrackedControllerRole_Invalid ∧
    (MoveCenterTabController.construct u).m_lastMoveHand
        = ETrackedControllerRole.TrackedControllerRole_Invalid ∧
    (MoveCenterTabController.construct u).m_activeTurnHand
        = ETrackedControllerRole.TrackedControllerRole_Invalid ∧
    (MoveCenterTabController.construct u).m_lastRotateHand
        = ETrackedControllerRole.TrackedControllerRole_Invalid ∧
    (MoveCenterTabController.construct u).lastHandQuaternion = ⟨-1000, 0, 0, 0⟩ ∧
    (MoveCenterTabController.construct u).lastHmdQuaternion = ⟨-1000, 0, 0, 0⟩ ∧
    (MoveCenterTabController.construct u).m_trackingUniverse
      = ETrackingUniverseOrigin.TrackingUniverseStanding.toInt ∧
    (MoveCenterTabController.construct u).m_trackingUniverse = 1 ∧
    (MoveCenterTabController.construct u).m_adjustChaperone = true ∧
    (MoveCenterTabController.construct u).m_activeMoveController = u.m_activeMoveController ∧
    (MoveCenterTabController.construct u).m_lastControllerPosition = u.m_lastControllerPosition ∧
    (MoveCenterTabController.construct u).handQuaternion = u.handQuaternion ∧
    (MoveCenterTabController.construct u).hmdQuaternion = u.hmdQuaternion := by
  refine ⟨rfl, rfl, rfl, rfl, rfl, rfl, rfl, rfl, rfl, rfl, rfl, rfl, rfl, rfl, rfl, rfl,
    rfl, rfl, rfl, rfl, rfl, rfl, rfl, rfl, rfl, rfl, rfl, rfl, rfl, rfl, rfl, rfl, rfl,
    rfl, rfl, rfl⟩

/-- C6: in a freshly constructed engine `lastHandQuaternion` and
`lastHmdQuaternion` are (-1000, 0, 0, 0), and every unit quaternion `q` (over any
ordered field, such as the reals) has `|q.w| <= 1`, hence `q.w` differs from the `w`
of either sentinel: comparing `w` with -1000 never takes a unit quaternion for the
sentinel. -/
theorem sentinel_distinct_from_unit_quaternion {α : Type} [LinearOrderedField α]
    (u : Indeterminate) (q : HmdQuaternion_t α)
    (hunit : q.w ^ 2 + q.x ^ 2 + q.y ^ 2 + q.z ^ 2 = 1) :
    (MoveCenterTabController.construct u).lastHandQuaternion = ⟨-1000, 0, 0, 0⟩ ∧
    (MoveCenterTabController.construct u).lastHmdQuaternion = ⟨-1000, 0, 0, 0⟩ ∧
    |q.w| ≤ 1 ∧
    q.w ≠ -1000 ∧
    q.w ≠ (((MoveCenterTabController.construct u).lastHandQuaternion.w : ℚ) : α) ∧
    q.w ≠ (((MoveCenterTabController.construct u).lastHmdQuaternion.w : ℚ) : α) := by
  have hw : q.w ^ 2 ≤ 1 := by nlinarith [sq_nonneg q.x, sq_nonneg q.y, sq_nonneg q.z]
  have habs : |q.w| ≤ 1 := by
    rw [abs_le]
    constructor <;> nlinarith [sq_nonneg (q.w + 1), sq_nonneg (q.w - 1)]
  have hne : q.w ≠ -1000 := by
    intro h
    rw [h] at habs
    norm_num at habs
  have hcast : (((-1000 : ℚ)) : α) = -1000 := by norm_num
  refine ⟨rfl, rfl, habs, hne, ?_, ?_⟩
  · show q.w ≠ (((-1000 : ℚ)) : α)
    rw [hcast]; exact hne
  · show q.w ≠ (((-1000 : ℚ)) : α)
    rw [hcast]; exact hne

/-- Witness for C6 at the identity rotation (1, 0, 0, 0) over the rationals. -/
theorem sentinel_distinct_from_unit_quaternion_witness :
    ((1 : ℚ) ^ 2 + (0 : ℚ) ^ 2 + (0 : ℚ) ^ 2 + (0 : ℚ) ^ 2 = 1) ∧
    |(1 : ℚ)| ≤ 1 ∧ (1 : ℚ) ≠ -1000 :=
  ⟨by norm_num,
   (sentinel_distinct_from_unit_quaternion Indeterminate.zeros
      (⟨1, 0, 0, 0⟩ : HmdQuaternion_t ℚ) (by norm_num)).2.2.1,
   (sentinel_distinct_from_unit_quaternion Indeterminate.zeros
      (⟨1, 0, 0, 0⟩ : HmdQuaternion_t ℚ) (by norm_num)).2.2.2.1⟩

/-- C7: in every engine state at most one of the hand roles (left, right) is the
active drag hand and at most one is the active turn hand, each being held in a
single role selector; in a freshly constructed engine both selectors are
`TrackedControllerRole_Invalid`, so no hand holds either gesture. -/
theorem at_most_one_active_hand_per_gesture (s : MoveCenterTabController)
    (u : Indeterminate) :
    ([ETrackedControllerRole.TrackedControllerRole_LeftHand,
      ETrackedControllerRole.TrackedControllerRole_RightHand].filter
        (fun h => decide (s.m_activeDragHand = h))).length ≤ 1 ∧
    ([ETrackedControllerRole.TrackedControllerRole_LeftHand,
      ETrackedControllerRole.TrackedControllerRole_RightHand].filter
        (fun h => decide (s.m_activeTurnHand = h))).length ≤ 1 ∧
    ¬ (s.m_activeDragHand = ETrackedControllerRole.TrackedControllerRole_LeftHand ∧
       s.m_activeDragHand = ETrackedControllerRole.TrackedControllerRole_RightHand) ∧
    ¬ (s.m_activeTurnHand = ETrackedControllerRole.TrackedControllerRole_LeftHand ∧
       s.m_activeTurnHand = ETrackedControllerRole.TrackedControllerRole_RightHand) ∧
    (MoveCenterTabController.construct u).m_activeDragHand
        = ETrackedControllerRole.TrackedControllerRole_Invalid ∧
    (MoveCenterTabController.construct u).m_activeTurnHand
        = ETrackedControllerRole.TrackedControllerRole_Invalid ∧
    ([ETrackedControllerRole.TrackedControllerRole_LeftHand,
      ETrackedControllerRole.TrackedControllerRole_RightHand].filter
        (fun h => decide ((MoveCenterTabController.construct u).m_activeDragHand = h))) = [] ∧
    ([ETrackedControllerRole.TrackedControllerRole_LeftHand,
      ETrackedControllerRole.TrackedControllerRole_RightHand].filter
        (fun h => decide ((MoveCenterTabController.construct u).m_activeTurnHand = h))) = [] := by
  refine ⟨?_, ?_, ?_, ?_, rfl, rfl, rfl, rfl⟩
  · cases s.m_activeDragHand <;> decide
  · cases s.m_activeTurnHand <;> decide
  · rintro ⟨h1, h2⟩
    rw [h1] at h2
    exact absurd h2 (by decide)
  · rintro ⟨h1, h2⟩
    rw [h1] at h2
    exact absurd h2 (by decide)

end advsettings
